import Mathlib

/-!
Verification development for the medical_extraction_tool repository.

The Python sources (medical_extraction/schemas.py, medical_extraction/core.py,
medical_extraction/llm_integration.py, app.py) are shallowly embedded below.
Conventions used throughout this file:

* Python strings are Lean `String`s; most character work happens on `List Char`.
* Python `json.loads` is modelled by `jsonLoads`, a fuel-based recursive
  descent routine over the JSON grammar Python accepts in strict mode
  (double-quoted strings only, no leading zeros in numbers, lowercase
  `true`/`false`/`null`, whole input consumed up to trailing whitespace).
  Python's nonstandard `NaN`/`Infinity` literals and surrogate-pair `\u`
  escapes are not modelled; no input in this development uses them.
  JSON integers and JSON floats become distinct constructors, mirroring the
  Python `int`/`float` distinction that `json.loads` preserves.
* Python exceptions are modelled by `Except PyErr`; a `.error` escaping one of
  the top-level model functions corresponds to an uncaught Python exception.
* `datetime` values are plain Gregorian calendar dates (`PyDate`);
  `datetime.now()` becomes an explicit `now : PyDate` argument.
* The iteration order of a Python `set` of strings depends on the per-process
  hash seed (string hashing is randomized per interpreter process), so it is
  modelled as an explicit reordering-function argument where it matters.
-/

namespace MedX

/-- Python exception values: only the kinds the embedded code can raise. The
carried string stands for `str(e)`; Python's exact diagnostic texts are
abstracted except where the source raises with an explicit literal message. -/
inductive PyErr where
  | valueError (msg : String)
  | typeError (msg : String)
  | keyError (msg : String)
  | attributeError (msg : String)
  | importError (msg : String)
  | unboundLocal (msg : String)
  | jsonDecode (msg : String)
deriving DecidableEq

/-- Python `str(e)` on an exception: the carried message. -/
def PyErr.msg : PyErr → String
  | .valueError m | .typeError m | .keyError m | .attributeError m
  | .importError m | .unboundLocal m | .jsonDecode m => m

/-- Whitespace skipped by Python's json scanner: space, tab, newline, return. -/
def isJsonWs (c : Char) : Bool := c = ' ' || c = '\t' || c = '\n' || c = '\r'

/-- Whitespace stripped by Python's `str.strip()` (and matched by the regex
class used in core.py's patterns): space, tab, newline, return, VT, FF. -/
def isPyWs (c : Char) : Bool :=
  c = ' ' || c = '\t' || c = '\n' || c = '\r' || c = Char.ofNat 11 || c = Char.ofNat 12

/-- Drop leading JSON whitespace. -/
def skipWs : List Char → List Char
  | c :: cs => if isJsonWs c then skipWs cs else c :: cs
  | [] => []

/-- Does the first list start with the second (character-exact)? -/
def lstarts : List Char → List Char → Bool
  | _, [] => true
  | [], _ :: _ => false
  | c :: cs, p :: ps => c = p && lstarts cs ps

/-- Python `str.strip()`. -/
def pyStrip (s : String) : String :=
  String.mk (((s.data.dropWhile (isPyWs ·)).reverse.dropWhile (isPyWs ·)).reverse)

/-- Longest digit run at the head of the input, with the remainder. -/
def takeDigits : List Char → List Char × List Char
  | c :: cs =>
    if c.isDigit then
      let (ds, r) := takeDigits cs
      (c :: ds, r)
    else ([], c :: cs)
  | [] => ([], [])

/-- Numeric value of a digit run. -/
def digitsVal (ds : List Char) : Nat :=
  ds.foldl (fun a c => a * 10 + (c.toNat - 48)) 0

/-- A Python value as produced by `json.loads`. JSON ints and JSON floats map
to distinct Python types, so they are kept apart here. -/
inductive JValue where
  | null
  | bool (b : Bool)
  | int (n : Int)
  | float (q : Rat)
  | str (s : String)
  | arr (elems : List JValue)
  | obj (members : List (String × JValue))

mutual

/-- Python `==` on json-loadable values. Numbers compare across `int`/`float`
(and `bool`, which is an `int` subtype in Python); different non-numeric types
never compare equal. -/
def jeq : JValue → JValue → Bool
  | .null, .null => true
  | .bool a, .bool b => a = b
  | .bool a, .int b => (if a then (1 : Int) else 0) = b
  | .bool a, .float b => ((if a then (1 : Int) else 0) : Rat) = b
  | .int a, .bool b => a = (if b then (1 : Int) else 0)
  | .int a, .int b => a = b
  | .int a, .float b => (a : Rat) = b
  | .float a, .bool b => a = ((if b then (1 : Int) else 0) : Rat)
  | .float a, .int b => a = (b : Rat)
  | .float a, .float b => a = b
  | .str a, .str b => a = b
  | .arr a, .arr b => jeqList a b
  | .obj a, .obj b => jeqMems a b
  | _, _ => false

/-- Elementwise `jeq` on lists. -/
def jeqList : List JValue → List JValue → Bool
  | [], [] => true
  | x :: xs, y :: ys => jeq x y && jeqList xs ys
  | _, _ => false

/-- Memberwise `jeq` on object member lists. -/
def jeqMems : List (String × JValue) → List (String × JValue) → Bool
  | [], [] => true
  | (k1, v1) :: xs, (k2, v2) :: ys => k1 = k2 && jeq v1 v2 && jeqMems xs ys
  | _, _ => false

end

/-- Value of a hex digit, if the character is one. -/
def hexDigit (c : Char) : Option Nat :=
  if '0' ≤ c && c ≤ '9' then some (c.toNat - 48)
  else if 'a' ≤ c && c ≤ 'f' then some (c.toNat - 87)
  else if 'A' ≤ c && c ≤ 'F' then some (c.toNat - 55)
  else none

/-- Body of a JSON string after the opening quote: collects characters up to
the closing quote, decoding escapes, rejecting raw control characters as
Python's strict mode does. -/
def parseJStr (acc : List Char) : List Char → Option (String × List Char)
  | '"' :: rest => some (String.mk acc.reverse, rest)
  | '\\' :: e :: rest =>
    if e = '"' then parseJStr ('"' :: acc) rest
    else if e = '\\' then parseJStr ('\\' :: acc) rest
    else if e = '/' then parseJStr ('/' :: acc) rest
    else if e = 'b' then parseJStr (Char.ofNat 8 :: acc) rest
    else if e = 'f' then parseJStr (Char.ofNat 12 :: acc) rest
    else if e = 'n' then parseJStr ('\n' :: acc) rest
    else if e = 'r' then parseJStr ('\r' :: acc) rest
    else if e = 't' then parseJStr ('\t' :: acc) rest
    else if e = 'u' then
      match rest with
      | a :: b :: c :: d :: rest2 =>
        match hexDigit a, hexDigit b, hexDigit c, hexDigit d with
        | some va, some vb, some vc, some vd =>
          parseJStr (Char.ofNat (((va * 16 + vb) * 16 + vc) * 16 + vd) :: acc) rest2
        | _, _, _, _ => none
      | _ => none
    else none
  | c :: rest => if c.toNat < 32 then none else parseJStr (c :: acc) rest
  | [] => none

/-- JSON number per Python's scanner regex
`(-?(0|[1-9][0-9]*))(\.[0-9]+)?([eE][-+]?[0-9]+)?`: a `.` or `e` not followed
by digits is left unconsumed, and a fractional part or exponent makes the
result a Python float. -/
def parseNumber (cs : List Char) : Option (JValue × List Char) :=
  let (neg, cs1) := match cs with
    | '-' :: r => (true, r)
    | _ => (false, cs)
  match cs1 with
  | c :: _ =>
    if ¬ c.isDigit then none
    else
      let (ids, cs2) := takeDigits cs1
      if ids.length > 1 && ids.head? = some '0' then none
      else
        let (hasFrac, fds, cs3) : Bool × List Char × List Char :=
          match cs2 with
          | '.' :: r =>
            match takeDigits r with
            | ([], _) => (false, [], cs2)
            | (ds, r2) => (true, ds, r2)
          | _ => (false, [], cs2)
        let (hasExp, ex, cs4) : Bool × Int × List Char :=
          match cs3 with
          | 'e' :: r | 'E' :: r =>
            let (esign, r1) : Int × List Char :=
              match r with
              | '+' :: r2 => (1, r2)
              | '-' :: r2 => (-1, r2)
              | _ => (1, r)
            match takeDigits r1 with
            | ([], _) => (false, 0, cs3)
            | (eds, r2) => (true, esign * (digitsVal eds : Int), r2)
          | _ => (false, 0, cs3)
        if hasFrac || hasExp then
          let mant : Rat := (digitsVal ids : Rat) + (digitsVal fds : Rat) / ((10 : Rat) ^ fds.length)
          let mag : Rat := if ex ≥ 0 then mant * (10 : Rat) ^ ex.toNat else mant / ((10 : Rat) ^ (-ex).toNat)
          some (.float (if neg then -mag else mag), cs4)
        else
          some (.int (if neg then -(digitsVal ids : Int) else (digitsVal ids : Int)), cs4)
  | [] => none

mutual

/-- One JSON value, fuel-bounded. The head-character dispatch mirrors Python's
scanner: object, array, string, `true`, `false`, `null`, or a number. -/
def parseVal : Nat → List Char → Option (JValue × List Char)
  | 0, _ => none
  | fuel + 1, cs =>
    match skipWs cs with
    | [] => none
    | c :: rest =>
      if c = '{' then parseObjBody fuel rest
      else if c = '[' then parseArrBody fuel rest
      else if c = '"' then (parseJStr [] rest).map (fun p => (.str p.1, p.2))
      else if c = 't' then
        if lstarts rest ['r', 'u', 'e'] then some (.bool true, rest.drop 3) else none
      else if c = 'f' then
        if lstarts rest ['a', 'l', 's', 'e'] then some (.bool false, rest.drop 4) else none
      else if c = 'n' then
        if lstarts rest ['u', 'l', 'l'] then some (.null, rest.drop 3) else none
      else if c = '-' || c.isDigit then parseNumber (c :: rest)
      else none

/-- Object body after the opening brace. -/
def parseObjBody : Nat → List Char → Option (JValue × List Char)
  | 0, _ => none
  | fuel + 1, cs =>
    match skipWs cs with
    | '}' :: rest => some (.obj [], rest)
    | _ => parseMembers fuel cs []

/-- Comma-separated `"key": value` members, ending at the closing brace. -/
def parseMembers : Nat → List Char → List (String × JValue) → Option (JValue × List Char)
  | 0, _, _ => none
  | fuel + 1, cs, acc =>
    match skipWs cs with
    | '"' :: rest =>
      match parseJStr [] rest with
      | none => none
      | some (k, r1) =>
        match skipWs r1 with
        | ':' :: r2 =>
          match parseVal fuel r2 with
          | none => none
          | some (v, r3) =>
            match skipWs r3 with
            | ',' :: r4 => parseMembers fuel r4 (acc ++ [(k, v)])
            | '}' :: r4 => some (.obj (acc ++ [(k, v)]), r4)
            | _ => none
        | _ => none
    | _ => none

/-- Array body after the opening bracket. -/
def parseArrBody : Nat → List Char → Option (JValue × List Char)
  | 0, _ => none
  | fuel + 1, cs =>
    match skipWs cs with
    | ']' :: rest => some (.arr [], rest)
    | _ => parseElems fuel cs []

/-- Comma-separated array elements, ending at the closing bracket. -/
def parseElems : Nat → List Char → List JValue → Option (JValue × List Char)
  | 0, _, _ => none
  | fuel + 1, cs, acc =>
    match parseVal fuel cs with
    | none => none
    | some (v, r1) =>
      match skipWs r1 with
      | ',' :: r2 => parseElems fuel r2 (acc ++ [v])
      | ']' :: r2 => some (.arr (acc ++ [v]), r2)
      | _ => none

end

/-- Python `json.loads`: one JSON document, then only whitespace may remain.
The fuel is generous: every recursive descent step consumes input. -/
def jsonLoads (s : String) : Option JValue :=
  match parseVal (s.data.length * 4 + 16) s.data with
  | some (v, rest) => if (skipWs rest).isEmpty then some v else none
  | none => none

/-- Python `str.find(ch)` (index of first occurrence; `-1` becomes `none`). -/
def pyFindAux (c : Char) : List Char → Option Nat
  | [] => none
  | x :: xs => if x = c then some 0 else (pyFindAux c xs).map (· + 1)

/-- `str.find` on a string. -/
def pyFind (s : String) (c : Char) : Option Nat := pyFindAux c s.data

/-- Python `str.rfind(ch)` (index of last occurrence). -/
def pyRFind (s : String) (c : Char) : Option Nat :=
  (pyFindAux c s.data.reverse).map (fun i => s.data.length - 1 - i)

/-- Python slice `s[a:b]` for nonnegative bounds (clamping, as Python does). -/
def pySlice (s : String) (a b : Nat) : String :=
  String.mk ((s.data.drop a).take (b - a))

/-- Case-insensitive match of a literal pattern at the head of the input,
returning the remainder on success (models `re.IGNORECASE` on ASCII). -/
def matchCI : List Char → List Char → Option (List Char)
  | cs, [] => some cs
  | [], _ :: _ => none
  | c :: cs, p :: ps => if c.toLower = p.toLower then matchCI cs ps else none

/-- One attempt of core.py's field regex `"FIELD"\s*:\s*"([^"]+)"` anchored at
the current position: quoted field name (case-insensitive), optional
whitespace around the colon, then a nonempty double-quoted run. -/
def fieldAt (field : List Char) (cs : List Char) : Option String :=
  match cs with
  | '"' :: r1 =>
    match matchCI r1 field with
    | none => none
    | some r2 =>
      match r2 with
      | '"' :: r3 =>
        match r3.dropWhile (isPyWs ·) with
        | ':' :: r5 =>
          match r5.dropWhile (isPyWs ·) with
          | '"' :: r7 =>
            let p := r7.span (fun c => ¬ c = '"')
            if p.1.isEmpty then none
            else
              match p.2 with
              | '"' :: _ => some (String.mk p.1)
              | _ => none
          | _ => none
        | _ => none
      | _ => none
  | _ => none

/-- `re.search` scan for the field pattern: leftmost position at which the
whole pattern matches wins. -/
def searchField (field : List Char) : List Char → Option String
  | [] => none
  | c :: cs =>
    match fieldAt field (c :: cs) with
    | some v => some v
    | none => searchField field cs

/-- core.py `MedicalExtractor._extract_field`: regex capture or the default. -/
def extractField (text : String) (field : String) (dflt : String) : String :=
  (searchField field.data text.data).getD dflt

/-- Can the fence-closing part `\n?```` of core.py's markdown regex match at
this point? The greedy `\n?` tries the newline first; either way the
backticks must follow. -/
def closeHere (cs : List Char) : Bool :=
  lstarts cs ['`', '`', '`'] || lstarts cs ['\n', '`', '`', '`']

/-- The lazy group `(.+?)` of the markdown regex: shortest nonempty prefix
after which the closing part matches; `re.DOTALL` lets it cross newlines. -/
def fenceScan (acc : List Char) : List Char → Option (List Char)
  | [] => none
  | c :: rest =>
    if closeHere rest then some (acc ++ [c])
    else fenceScan (acc ++ [c]) rest

/-- core.py's strategy-2 regex search for ```` ```json\n?(.+?)\n?``` ````:
leftmost occurrence of the literal opener; the greedy `\n?` after it consumes
a newline when present, backtracking to the empty match if the rest fails;
on total failure the search resumes at the next position. -/
def findFence : List Char → Option String
  | [] => none
  | c :: cs =>
    if lstarts (c :: cs) ['`', '`', '`', 'j', 's', 'o', 'n'] then
      let after := (c :: cs).drop 7
      let got :=
        match after with
        | '\n' :: body =>
          match fenceScan [] body with
          | some g => some g
          | none => fenceScan [] after
        | _ => fenceScan [] after
      match got with
      | some g => some (String.mk g)
      | none => findFence cs
    else findFence cs

/-- Python `float(str)` on the common literal forms: optional surrounding
whitespace, optional sign, digits with an optional point on either side, and
an optional exponent (`inf`/`nan` spellings and `_` separators are not
modelled; no embedded input uses them). -/
def pyFloatLit (s : String) : Option Rat :=
  let cs := (s.data.dropWhile (isPyWs ·)).reverse.dropWhile (isPyWs ·) |>.reverse
  let (neg, cs1) : Bool × List Char :=
    match cs with
    | '-' :: r => (true, r)
    | '+' :: r => (false, r)
    | _ => (false, cs)
  let (ids, cs2) := takeDigits cs1
  let (hasDot, fds, cs3) : Bool × List Char × List Char :=
    match cs2 with
    | '.' :: r =>
      let p := takeDigits r
      (true, p.1, p.2)
    | _ => (false, [], cs2)
  if ids.isEmpty && fds.isEmpty then none
  else
    let (expOk, ex, cs4) : Bool × Int × List Char :=
      match cs3 with
      | 'e' :: r | 'E' :: r =>
        let (esign, r1) : Int × List Char :=
          match r with
          | '+' :: r2 => (1, r2)
          | '-' :: r2 => (-1, r2)
          | _ => (1, r)
        match takeDigits r1 with
        | ([], _) => (false, 0, r1)
        | (eds, r2) => (true, esign * (digitsVal eds : Int), r2)
      | _ => (true, 0, cs3)
    let _ := hasDot
    if ¬ expOk || ¬ cs4.isEmpty then none
    else
      let mant : Rat := (digitsVal ids : Rat) + (digitsVal fds : Rat) / ((10 : Rat) ^ fds.length)
      let mag : Rat := if ex ≥ 0 then mant * (10 : Rat) ^ ex.toNat else mant / ((10 : Rat) ^ (-ex).toNat)
      some (if neg then -mag else mag)

/-- Python `float(x)` on a json-loadable value: ints, floats and bools convert,
numeric strings parse, anything else raises. -/
def pyFloat : JValue → Except PyErr Rat
  | .int n => .ok (n : Rat)
  | .float q => .ok q
  | .bool b => .ok (if b then 1 else 0)
  | .str s =>
    match pyFloatLit s with
    | some q => .ok q
    | none => .error (.valueError ("could not convert string to float: " ++ s))
  | _ => .error (.typeError ("float() argument must be a string or a real number"))

/-- Python `repr`/`str` of a float, for the decimal-valued floats the embedded
inputs contain (denominator a power of ten); other rationals keep an explicit
fraction spelling, a divergence no theorem below depends on. -/
def floatRepr (q : Rat) : String :=
  let sign := if q < 0 then ("-") else ("")
  let a : Rat := |q|
  match (List.range 18).find? (fun k => decide ((a * (10 : Rat) ^ k).den = 1)) with
  | some k =>
    if k = 0 then sign ++ toString (a.num) ++ (".0")
    else
      let digits := toString (a * (10 : Rat) ^ k).num
      let padded := if digits.length < k + 1 then
        String.mk (List.replicate (k + 1 - digits.length) '0') ++ digits else digits
      sign ++ String.mk (padded.data.take (padded.data.length - k)) ++ (".") ++
        String.mk (padded.data.drop (padded.data.length - k))
  | none => sign ++ toString a.num ++ ("/") ++ toString a.den

/-- Keys of a Python dict built from an ordered member list with
last-assignment-wins semantics: first-occurrence order, no duplicates. -/
def objKeys (ms : List (String × JValue)) : List String :=
  (ms.map Prod.fst).eraseDups

mutual

/-- Python `str(x)` on a json-loadable value. -/
def pyStr : JValue → String
  | .null => ("None")
  | .bool true => ("True")
  | .bool false => ("False")
  | .int n => toString n
  | .float q => floatRepr q
  | .str s => s
  | .arr l => ("[") ++ pyReprList l ++ ("]")
  | .obj ms => ("\x7b") ++ pyReprMems ms ++ ("\x7d")

/-- Python `repr(x)`: like `str` but strings gain quotes. -/
def pyRepr : JValue → String
  | .null => ("None")
  | .bool true => ("True")
  | .bool false => ("False")
  | .int n => toString n
  | .float q => floatRepr q
  | .str s => ("\x27") ++ s ++ ("\x27")
  | .arr l => ("[") ++ pyReprList l ++ ("]")
  | .obj ms => ("\x7b") ++ pyReprMems ms ++ ("\x7d")

/-- Comma-joined reprs of list elements. -/
def pyReprList : List JValue → String
  | [] => ("")
  | [x] => pyRepr x
  | x :: y :: xs => pyRepr x ++ (", ") ++ pyReprList (y :: xs)

/-- Comma-joined `key: value` reprs of dict members. -/
def pyReprMems : List (String × JValue) → String
  | [] => ("")
  | [(k, v)] => ("\x27") ++ k ++ ("\x27: ") ++ pyRepr v
  | (k, v) :: m :: ms => ("\x27") ++ k ++ ("\x27: ") ++ pyRepr v ++ (", ") ++ pyReprMems (m :: ms)

end

/-- Python `list(x)`: lists copy, strings split into characters, dicts list
their keys; other json-loadable values raise `TypeError`. -/
def pyList : JValue → Except PyErr (List JValue)
  | .arr l => .ok l
  | .str s => .ok (s.data.map (fun c => .str (String.mk [c])))
  | .obj ms => .ok ((objKeys ms).map .str)
  | _ => .error (.typeError ("object is not iterable"))

/-- Is `pat` a substring of `s` (Python `sub in str`)? -/
def substrAux (pat : List Char) : List Char → Bool
  | [] => lstarts [] pat
  | c :: cs => lstarts (c :: cs) pat || substrAux pat cs

/-- Python `k in v` for a string `k`: dict key membership, substring test on
strings, elementwise `==` on lists; other json-loadable values raise. -/
def pyContains (k : String) : JValue → Except PyErr Bool
  | .obj ms => .ok (ms.any (fun kv => kv.1 = k))
  | .str s => .ok (substrAux k.data s.data)
  | .arr l => .ok (l.any (fun x => jeq x (.str k)))
  | _ => .error (.typeError ("argument of type is not iterable"))

/-- Python subscript `v[k]` for a string key: dict lookup
(last-assignment-wins) or `KeyError`; non-dicts raise `TypeError`. -/
def pySub (v : JValue) (k : String) : Except PyErr JValue :=
  match v with
  | .obj ms =>
    match (ms.reverse.find? (fun kv => decide (kv.1 = k))).map Prod.snd with
    | some x => .ok x
    | none => .error (.keyError k)
  | _ => .error (.typeError ("value is not subscriptable by string"))

/-- Python `v.get(k, dflt)`: only dicts have `.get`; others raise
`AttributeError`. -/
def pyGetD (v : JValue) (k : String) (dflt : JValue) : Except PyErr JValue :=
  match v with
  | .obj ms => .ok (((ms.reverse.find? (fun kv => decide (kv.1 = k))).map Prod.snd).getD dflt)
  | _ => .error (.attributeError ("object has no attribute get"))

/-- Python `for x in v`: lists yield elements, strings characters, dicts keys;
other json-loadable values raise `TypeError`. -/
def pyIter : JValue → Except PyErr (List JValue)
  | .arr l => .ok l
  | .str s => .ok (s.data.map (fun c => .str (String.mk [c])))
  | .obj ms => .ok ((objKeys ms).map .str)
  | _ => .error (.typeError ("object is not iterable"))

/-! ### Calendar dates (`datetime.date` / midnight `datetime`) -/

/-- A Gregorian calendar date. -/
structure PyDate where
  year : Nat
  month : Nat
  day : Nat
deriving DecidableEq

/-- Gregorian leap year. -/
def isLeap (y : Nat) : Bool := y % 4 = 0 && (y % 100 ≠ 0 || y % 400 = 0)

/-- Days in a month. -/
def daysInMonth (y m : Nat) : Nat :=
  if m = 2 then (if isLeap y then 29 else 28)
  else if m = 4 || m = 6 || m = 9 || m = 11 then 30
  else 31

/-- Cumulative days before month `m` in a non-leap year. -/
def monthDaysBefore (m : Nat) : Nat :=
  [0, 0, 31, 59, 90, 120, 151, 181, 212, 243, 273, 304, 334].getD m 0

/-- `datetime.date.toordinal()`: day count with 0001-01-01 as day one. -/
def toOrdinal (d : PyDate) : Int :=
  ((365 * (d.year - 1) + (d.year - 1) / 4 - (d.year - 1) / 100 + (d.year - 1) / 400
    + monthDaysBefore d.month + (if d.month > 2 && isLeap d.year then 1 else 0) + d.day : Nat) : Int)

/-- A calendar-valid date in `datetime`'s supported range. -/
def dateOk (d : PyDate) : Bool :=
  1 ≤ d.year && d.year ≤ 9999 && 1 ≤ d.month && d.month ≤ 12 &&
  1 ≤ d.day && d.day ≤ daysInMonth d.year d.month

/-- `datetime.strptime(s, "%Y-%m-%d")`: exactly four year digits, one or two
month and day digits, literal dashes, nothing left over, and a calendar-valid
date; otherwise `ValueError` (here `none`). -/
def parseYMD (s : String) : Option PyDate :=
  match s.data with
  | y1 :: y2 :: y3 :: y4 :: '-' :: rest =>
    if y1.isDigit && y2.isDigit && y3.isDigit && y4.isDigit then
      let y := digitsVal [y1, y2, y3, y4]
      match takeDigits rest with
      | (mds, '-' :: rest2) =>
        match takeDigits rest2 with
        | (dds, []) =>
          let m := digitsVal mds
          let d := digitsVal dds
          if 1 ≤ mds.length && mds.length ≤ 2 && 1 ≤ dds.length && dds.length ≤ 2 &&
             dateOk ⟨y, m, d⟩ then
            some ⟨y, m, d⟩
          else none
        | _ => none
      | _ => none
    else none
  | _ => none

/-! ### core.py: `MedicalExtractor` -/

/-- `MedicalExtractor._calculate_age`: `strptime` on the raw string, then a
bare year difference (not whole years elapsed). An unparsable string raises
`ValueError`, which `_calculate_age` does not catch. -/
def calcAge (dob : String) (now : PyDate) : Except PyErr Int :=
  match parseYMD dob with
  | none => .error (.valueError ("time data " ++ dob ++ " does not match format %Y-%m-%d"))
  | some d => .ok ((now.year : Int) - (d.year : Int))

/-- One clinical note as consumed by `_preprocess_notes`. -/
structure ClinicalNote where
  date : String
  doctor : String
  note : String
deriving DecidableEq

/-- The `medical_data` dictionary fields `MedicalExtractor.extract` reads.
`chronic_conditions` and `allergies` are read with `.get(..., [])`, so the
empty list stands for an absent key. -/
structure MedicalData where
  patient_id : String
  date_of_birth : String
  chronic_conditions : List String
  allergies : List String
  medical_notes : List ClinicalNote
deriving DecidableEq

/-- `MedicalExtractor._preprocess_notes`. -/
def preprocessNotes (notes : List ClinicalNote) : String :=
  String.intercalate ("\n")
    (notes.enum.map (fun p =>
      ("[Note ") ++ toString (p.1 + 1) ++ (" - ") ++ p.2.date ++ (" by ") ++ p.2.doctor ++
      ("]:\n") ++ p.2.note))

/-- `MedicalExtractor.PROMPT_TEMPLATE`, with the placeholders substituted as
`str.format` does (literal braces in the template come from doubled braces). -/
def corePromptText (pid : String) (age : Int) (conditions allergies question notes : String) :
    String :=
  ("As a medical expert, analyze these clinical notes and extract the following:\n    \n**Patient Context:**\n- ID: ")
  ++ pid ++ ("\n- Age: ") ++ toString age ++ ("\n- Conditions: ") ++ conditions
  ++ ("\n- Allergies: ") ++ allergies
  ++ ("\n\n**Task:**\n1. Answer: ") ++ question
  ++ ("\n2. Extract all relevant clinical findings\n3. Identify supporting evidence\n\n**Response Format (JSON ONLY):**\n\x7b\n  \"answer\": \"yes|no|unknown\",\n  \"confidence\": 0.0-1.0,\n  \"reason\": \"clinical justification\",\n  \"evidence\": [\n    \x7b\n      \"text\": \"exact note excerpt\",\n      \"page\": \"note reference\",\n      \"relevance\": 0.0-1.0\n    \x7d\n  ],\n  \"extracted_data\": \x7b\n    \"medications\": [],\n    \"diagnoses\": [],\n    \"procedures\": [],\n    \"symptoms\": []\n  \x7d\n\x7d\n\n**Clinical Notes:**\n")
  ++ notes ++ ("\n\nReturn ONLY valid JSON with NO additional text:")

/-- The final-fallback dictionary of `_extract_from_response`: regex-extracted
`answer`/`reason` defaulting to the empty string, `confidence` defaulting to
`"0"` and then coerced with `float()` — which raises `ValueError` when the
captured text is not numeric. -/
def fallbackDict (response : String) : Except PyErr JValue :=
  let ans := extractField response ("answer") ("")
  let confStr := extractField response ("confidence") ("0")
  match pyFloatLit confStr with
  | none => .error (.valueError ("could not convert string to float: " ++ confStr))
  | some q =>
    .ok (.obj
      [(("answer"), .str ans), (("confidence"), .float q),
       (("reason"), .str (extractField response ("reason") (""))),
       (("evidence"), .arr []),
       (("extracted_data"), .obj
         [(("medications"), .arr []), (("diagnoses"), .arr []),
          (("procedures"), .arr []), (("symptoms"), .arr [])])])

/-- `MedicalExtractor._extract_from_response`: direct decode, then the
markdown-fence regex, then the first-`{`-to-last-`}` substring, then the
regex field fallback. Only `json.JSONDecodeError` is swallowed between
strategies; the fallback's `float()` failure escapes. -/
def extractFromResponse (response : String) : Except PyErr JValue :=
  match jsonLoads response with
  | some v => .ok v
  | none =>
    let step3 : Except PyErr JValue :=
      match pyFind response '{', pyRFind response '}' with
      | some a, some b =>
        match jsonLoads (pySlice response a (b + 1)) with
        | some v => .ok v
        | none => fallbackDict response
      | _, _ => fallbackDict response
    match findFence response.data with
    | some inner =>
      match jsonLoads inner with
      | some v => .ok v
      | none => step3
    | none => step3

/-- The `all(k in result for k in ["answer", "reason"])` validation in
`extract`: lazy `in` tests (which can themselves raise `TypeError` on numeric
results), then `ValueError` when a required key is missing. -/
def checkRequired (result : JValue) : Except PyErr JValue := do
  let hasAns ← pyContains ("answer") result
  if ¬ hasAns then .error (.valueError ("Missing required fields in response"))
  else do
    let hasReason ← pyContains ("reason") result
    if ¬ hasReason then .error (.valueError ("Missing required fields in response"))
    else .ok result

/-- What `MedicalExtractor.extract` returns: the success dictionary, the
failure dictionary, or Python's implicit `None` (only reachable with a zero
retry bound). -/
inductive ExtOutcome where
  | success (data : JValue) (raw : String)
  | failure (error : String) (raw : String)
  | pyNone

/-- `self.retry_attempts` set in `MedicalExtractor.__init__`. -/
def retryAttempts : Nat := 3

/-- The retry loop of `MedicalExtractor.extract`. The model is invoked as
`llm attempt prompt` (a per-attempt behaviour, capturing stateful stubs);
`lastResp` is the Python local `response`, which is only bound once an
invocation has returned. On the last attempt (`rest = []`, i.e.
`attempt == retry_attempts - 1`) an exception produces the failure
dictionary — unless `response` was never bound, in which case referencing it
in the `except` block raises `UnboundLocalError`, which nothing catches. -/
def extractLoop (llm : Nat → String → Except PyErr String) (prompt : String) :
    List Nat → Option String → Except PyErr ExtOutcome
  | [], _ => .ok .pyNone
  | a :: rest, lastResp =>
    match llm a prompt with
    | .error e =>
      if rest.isEmpty then
        match lastResp with
        | some r => .ok (.failure e.msg r)
        | none => .error (.unboundLocal ("local variable response referenced before assignment"))
      else extractLoop llm prompt rest lastResp
    | .ok response =>
      match (extractFromResponse response).bind checkRequired with
      | .ok result => .ok (.success result response)
      | .error e =>
        if rest.isEmpty then .ok (.failure e.msg response)
        else extractLoop llm prompt rest (some response)

/-- `MedicalExtractor.extract`: age (raising on a malformed date of birth),
note preprocessing, prompt formatting, then the retry loop. -/
def coreExtract (llm : Nat → String → Except PyErr String) (d : MedicalData)
    (question : String) (now : PyDate) : Except PyErr ExtOutcome :=
  match calcAge d.date_of_birth now with
  | .error e => .error e
  | .ok age =>
    let prompt := corePromptText d.patient_id age
      (String.intercalate (", ") d.chronic_conditions)
      (String.intercalate (", ") d.allergies) question (preprocessNotes d.medical_notes)
    extractLoop llm prompt (List.range retryAttempts) none

/-! ### llm_integration.py -/

/-- The fixed payload `_get_mock_llm`'s `invoke` returns:
`json.dumps` of the literal dictionary in the source. -/
def mockPayload : String :=
  ("\x7b\"treatments\": [\x7b\"medications\": [\"amoxicillin\"], \"facility\": \"Mock Hospital\"\x7d], \"has_condition\": true\x7d")

/-- The deterministic stub's behaviour: every invocation returns the fixed
payload, ignoring the prompt. -/
def mockInvoke : Nat → String → Except PyErr String := fun _ _ => .ok mockPayload

/-- The invocable `get_llm` hands back, by construction site. -/
inductive LLMSpec where
  | mockLLM
  | openaiLLM (model : String) (apiKey : String)
  | ollamaLLM (model : String)
deriving DecidableEq

/-- The provider tag (`Literal["ollama", "openai", "mock"]`). -/
inductive ProviderTag where
  | ollama
  | openai
  | mock
deriving DecidableEq

/-- Python `a or b` over optional strings, where `None` and `""` are falsy. -/
def pyOrStr : Option String → Option String → Option String
  | some s, b => if s = "" then b else some s
  | none, b => b

/-- `_get_openai_llm`: resolve the key from the explicit kwarg or the
environment (empty strings are falsy), raise the credential `ValueError` when
neither yields one, then construct the client — `importOk = false` stands for
the optional integration being unavailable, surfacing as `ImportError`. -/
def getOpenaiLLM (modelName : String) (explicitKey envKey : Option String) (importOk : Bool) :
    Except PyErr LLMSpec :=
  match pyOrStr explicitKey envKey with
  | none => .error (.valueError ("OpenAI API key not found. Set OPENAI_API_KEY in .env or pass explicitly"))
  | some k =>
    if k = "" then
      .error (.valueError ("OpenAI API key not found. Set OPENAI_API_KEY in .env or pass explicitly"))
    else if importOk then .ok (.openaiLLM modelName k)
    else .error (.importError ("openai integration unavailable"))

/-- `_get_ollama_llm`: construction needs only the integration to import. -/
def getOllamaLLM (modelName : String) (importOk : Bool) : Except PyErr LLMSpec :=
  if importOk then .ok (.ollamaLLM modelName) else .error (.importError ("ollama integration unavailable"))

/-- `get_llm`: mock short-circuits; otherwise the chosen constructor runs
inside `try/except ImportError`, whose handler substitutes the mock; any
other exception (notably the credential `ValueError`) propagates. The
`model or default` idiom treats `None` and `""` as missing. -/
def getLLM (provider : ProviderTag) (modelArg : Option String)
    (explicitKey envKey : Option String) (openaiImportOk ollamaImportOk : Bool) :
    Except PyErr LLMSpec :=
  match provider with
  | .mock => .ok .mockLLM
  | .openai =>
    let m := (pyOrStr modelArg none).getD ("gpt-3.5-turbo")
    match getOpenaiLLM m explicitKey envKey openaiImportOk with
    | .error (.importError _) => .ok .mockLLM
    | r => r
  | .ollama =>
    let m := (pyOrStr modelArg none).getD ("llama3")
    match getOllamaLLM m ollamaImportOk with
    | .error (.importError _) => .ok .mockLLM
    | r => r

/-! ### app.py -/

/-- `date_str.split('T')[0]`: the part before the first `T`. -/
def splitHeadT (s : String) : String :=
  String.mk (s.data.takeWhile (fun c => ¬ c = 'T'))

/-- app.py `safe_date_parse`: `strptime` on the raw string; on `ValueError`,
`strptime` on the part before `T`; on any further failure, `datetime.now()`. -/
def safeDateParse (s : String) (now : PyDate) : PyDate :=
  match parseYMD s with
  | some d => d
  | none =>
    match parseYMD (splitHeadT s) with
    | some d => d
    | none => now

/-- The age `create_medical_prompt` derives:
`(datetime.now() - birth_date).days // 365` with floor division. -/
def appAge (dob : String) (now : PyDate) : Int :=
  Int.fdiv (toOrdinal now - toOrdinal (safeDateParse dob now)) 365

/-- JSON string escaping as `json.dumps` performs it for the characters the
embedded inputs contain (quote, backslash and the common control characters;
non-ASCII `\uXXXX` encoding is not modelled). -/
def escChar (c : Char) : List Char :=
  if c = '"' then ['\\', '"']
  else if c = '\\' then ['\\', '\\']
  else if c = '\n' then ['\\', 'n']
  else if c = '\t' then ['\\', 't']
  else if c = '\r' then ['\\', 'r']
  else [c]

/-- Escape a whole string for JSON output. -/
def jsEscape (s : String) : String :=
  String.mk (s.data.foldr (fun c acc => escChar c ++ acc) [])

/-- Two-space indentation at a nesting level. -/
def indentStr (lvl : Nat) : String := String.mk (List.replicate (2 * lvl) ' ')

mutual

/-- `json.dumps(v, indent=2)` at a nesting level. -/
def jdump : Nat → JValue → String
  | _, .null => ("null")
  | _, .bool true => ("true")
  | _, .bool false => ("false")
  | _, .int n => toString n
  | _, .float q => floatRepr q
  | _, .str s => ("\"") ++ jsEscape s ++ ("\"")
  | _, .arr [] => ("[]")
  | lvl, .arr (x :: xs) =>
    ("[\n") ++ jdumpItems (lvl + 1) (x :: xs) ++ ("\n") ++ indentStr lvl ++ ("]")
  | _, .obj [] => ("\x7b\x7d")
  | lvl, .obj (m :: ms) =>
    ("\x7b\n") ++ jdumpMems (lvl + 1) (m :: ms) ++ ("\n") ++ indentStr lvl ++ ("\x7d")

/-- Indented, comma-newline separated array items. -/
def jdumpItems : Nat → List JValue → String
  | _, [] => ("")
  | lvl, [x] => indentStr lvl ++ jdump lvl x
  | lvl, x :: y :: xs => indentStr lvl ++ jdump lvl x ++ (",\n") ++ jdumpItems lvl (y :: xs)

/-- Indented, comma-newline separated object members. -/
def jdumpMems : Nat → List (String × JValue) → String
  | _, [] => ("")
  | lvl, [(k, v)] => indentStr lvl ++ ("\"") ++ jsEscape k ++ ("\": ") ++ jdump lvl v
  | lvl, (k, v) :: m :: ms =>
    indentStr lvl ++ ("\"") ++ jsEscape k ++ ("\": ") ++ jdump lvl v ++ (",\n") ++
    jdumpMems lvl (m :: ms)

end

/-- `json.dumps(v, indent=2)`. -/
def jdumps (v : JValue) : String := jdump 0 v

/-- Lowercasing, `str.lower()` on ASCII. -/
def strLower (s : String) : String := String.mk (s.data.map Char.toLower)

/-- The code-fence stripping in app.py `parse_llm_response`: three independent
`if`s on the stripped content (`startswith`/`endswith` probes), each followed
by a further strip. -/
def stripFences (content : String) : String :=
  let c1 := if lstarts content.data ['`', '`', '`', 'j', 's', 'o', 'n'] then
              pyStrip (String.mk (content.data.drop 7))
            else content
  let c2 := if lstarts c1.data ['`', '`', '`'] then pyStrip (String.mk (c1.data.drop 3)) else c1
  if lstarts c2.data.reverse ['`', '`', '`'] then
    pyStrip (String.mk (c2.data.take (c2.data.length - 3)))
  else c2

/-- `parse_llm_response`'s preprocessing: strip, then fence removal. The
response is already plain text here (the `hasattr(response, "content")` probe
resolves to the string itself for string responses). -/
def appPreprocess (response : String) : String := stripFences (pyStrip response)

/-- The tuple `parse_llm_response` returns. -/
structure AppResult where
  answer : String
  reason : String
  evidence : List JValue
  confidence : Rat

/-- The body of app.py `parse_llm_response` up to its `except`: decode the
preprocessed content, then build the tuple left to right —
`str(...).lower()` on `Answer`, `str(...)` on `Reason`, `list(...)` on
`Evidence`, `float(...)` on `Confidence` — letting conversion errors raise. -/
def parseLLMResponseE (response : String) : Except PyErr AppResult := do
  match jsonLoads (appPreprocess response) with
  | none => .error (.jsonDecode ("Expecting value"))
  | some result => do
    let ansV ← pyGetD result ("Answer") (.str ("unknown"))
    let reasonV ← pyGetD result ("Reason") (.str ("No reason provided"))
    let evV ← pyGetD result ("Evidence") (.arr [])
    let ev ← pyList evV
    let confV ← pyGetD result ("Confidence") (.int 0)
    let conf ← pyFloat confV
    .ok ⟨strLower (pyStr ansV), pyStr reasonV, ev, conf⟩

/-- app.py `parse_llm_response`: any exception in the body collapses to the
`("error", "Analysis error: ...", [], 0)` tuple. -/
def parseLLMResponse (response : String) : AppResult :=
  match parseLLMResponseE response with
  | .ok r => r
  | .error e => ⟨("error"), ("Analysis error: ") ++ e.msg, [], 0⟩

/-- The condition-set accumulation loop of `create_medical_prompt`:
`event.get('content', {})` (raising `AttributeError` on non-dict events),
`'condition' in content` (raising on non-container contents), then
`conditions.add(content['condition'])` — a Python `set.add`, which raises
`TypeError` on unhashable values and deduplicates by `==`. The accumulator
records the distinct members; their iteration order is supplied separately. -/
def collectConds : List JValue → List JValue → Except PyErr (List JValue)
  | [], acc => .ok acc
  | ev :: rest, acc => do
    let content ← pyGetD ev ("content") (.obj [])
    let hasC ← pyContains ("condition") content
    if hasC then do
      let c ← pySub content ("condition")
      match c with
      | .arr _ | .obj _ => .error (.typeError ("unhashable type"))
      | _ => collectConds rest (if acc.any (fun x => jeq x c) then acc else acc ++ [c])
    else collectConds rest acc

/-- The recent-notes comprehension of `create_medical_prompt`:
`event['content']['note']` for events whose `content` contains a `note`. -/
def collectNotes : List JValue → List JValue → Except PyErr (List JValue)
  | [], acc => .ok acc
  | ev :: rest, acc => do
    let content ← pyGetD ev ("content") (.obj [])
    let hasN ← pyContains ("note") content
    if hasN then do
      let cV ← pySub ev ("content")
      let n ← pySub cV ("note")
      collectNotes rest (acc ++ [n])
    else collectNotes rest acc

/-- `str.join` over json-loadable items: every item must be a string. -/
def strItems : List JValue → Except PyErr (List String)
  | [] => .ok []
  | .str s :: rest => do
    let tail ← strItems rest
    .ok (s :: tail)
  | _ :: _ => .error (.typeError ("sequence item: expected str instance"))

/-- `', '.join(conditions) if conditions else 'None'`. -/
def renderConds (conds : List JValue) : Except PyErr String :=
  if conds.isEmpty then .ok ("None")
  else do
    let strs ← strItems conds
    .ok (String.intercalate (", ") strs)

/-- `strptime`'s first argument must be a string; any other json-loadable
value raises `TypeError` (uncaught by `safe_date_parse`'s `except ValueError`). -/
def asPyStrArg : JValue → Except PyErr String
  | .str s => .ok s
  | _ => .error (.typeError ("strptime argument 1 must be str"))

/-- The `patient_info` f-string of `create_medical_prompt`. -/
def patientInfoText (pid nameV genderV raceV : JValue) (age : Int) (condText : String) : String :=
  ("Patient ID: ") ++ pyStr pid ++ ("\n") ++
  ("Name: ") ++ pyStr nameV ++ ("\n") ++
  ("Age: ") ++ toString age ++ (" years\n") ++
  ("Gender: ") ++ pyStr genderV ++ ("\n") ++
  ("Race: ") ++ pyStr raceV ++ ("\n") ++
  ("Conditions: ") ++ condText ++ ("\n")

/-- The `prompt_parts` list of `create_medical_prompt`, joined with newlines:
the fixed format contract, the patient information block, the question, the
last notes, and the dumped timeline. -/
def promptPartsText (pid nameV genderV raceV : JValue) (age : Int) (condText : String)
    (recentStrs : List String) (tl : JValue) (question : String) : String :=
  String.intercalate ("\n")
    [("You are a medical analyst. Return JSON with:"),
     ("1. Clear yes/no answer"),
     ("2. Clinical reasoning"),
     ("3. Supporting evidence from timeline"),
     (""),
     ("Format MUST be:"),
     ("\x7b"),
     ("  \"Answer\": \"yes|no\","),
     ("  \"Reason\": \"string\","),
     ("  \"Evidence\": [\"string\"],"),
     ("  \"Confidence\": 0-1"),
     ("\x7d"),
     (""),
     ("Patient Information:"),
     patientInfoText pid nameV genderV raceV age condText,
     (""),
     ("Question: ") ++ question,
     (""),
     ("Recent Clinical Notes (analyze these chronologically):"),
     String.intercalate ("\n\n") recentStrs,
     (""),
     ("Full Timeline (reference as needed):"),
     jdumps tl,
     (""),
     ("Return valid JSON ONLY:")]

/-- app.py `create_medical_prompt` before its catch-all `except`. `md` is the
raw `medical_data` dictionary. `setOrder` supplies the iteration order of the
condition `set` (hash-seed dependent in Python, hence an explicit parameter);
it receives the set's distinct members in insertion order. -/
def createMedicalPromptE (setOrder : List JValue → List JValue) (now : PyDate)
    (md : JValue) (question : String) : Except PyErr String := do
  let demo ← pySub md ("demographics")
  let dobV ← pySub demo ("dob")
  let dob ← asPyStrArg dobV
  let age := appAge dob now
  let tl ← pySub md ("timeline")
  let evs ← pyIter tl
  let condSet ← collectConds evs []
  let pid ← pyGetD md ("patient_id") (.str ("N/A"))
  let nameV ← pyGetD demo ("name") (.str ("Unknown"))
  let genderV ← pyGetD demo ("gender") (.str ("Unknown"))
  let raceV ← pyGetD demo ("race") (.str ("Unknown"))
  let condText ← renderConds (setOrder condSet)
  let notes ← collectNotes evs []
  let recentStrs ← strItems (notes.drop (notes.length - 3))
  .ok (promptPartsText pid nameV genderV raceV age condText recentStrs tl question)

/-- app.py `create_medical_prompt`: the catch-all `except` turns any internal
exception into the empty string. -/
def createMedicalPrompt (setOrder : List JValue → List JValue) (now : PyDate)
    (md : JValue) (question : String) : String :=
  match createMedicalPromptE setOrder now md question with
  | .ok s => s
  | .error _ => ("")

/-! ### schemas.py

The pydantic models become Lean structures: the Lean types carry the
structural part of the schema (field presence, tagged-union shape, enum
literals, optionality), and `schemaOk` carries the string-pattern,
minimum-length and calendar constraints that pydantic validates on top.
-/

/-- Is the character an uppercase ASCII letter? -/
def isUpperAZ (c : Char) : Bool := 'A' ≤ c && c ≤ 'Z'

/-- `^PT\d\x7b3,6\x7d$` (the `PatientID` constrained type). -/
def patientIdOk (s : String) : Bool :=
  match s.data with
  | 'P' :: 'T' :: rest => rest.all (·.isDigit) && 3 ≤ rest.length && rest.length ≤ 6
  | _ => false

/-- The `ICD10Code` pattern: an uppercase letter, two digits, optionally a dot
and one or two digits. -/
def icd10Ok (s : String) : Bool :=
  match s.data with
  | c :: a :: b :: rest =>
    isUpperAZ c && a.isDigit && b.isDigit &&
    (match rest with
     | [] => true
     | ['.', d] => d.isDigit
     | ['.', d, e] => d.isDigit && e.isDigit
     | _ => false)
  | _ => false

/-- The `ICD10PCSCode` pattern: digit, letter, two digits, two
letters-or-digits, letter — seven characters. -/
def icd10pcsOk (s : String) : Bool :=
  match s.data with
  | [a, b, c, d, e, f, g] =>
    a.isDigit && isUpperAZ b && c.isDigit && d.isDigit &&
    (isUpperAZ e || e.isDigit) && (isUpperAZ f || f.isDigit) && isUpperAZ g
  | _ => false

/-- The `FollowUpTime` pattern: digits, one whitespace, `weeks` or `months`. -/
def followUpOk (s : String) : Bool :=
  match takeDigits s.data with
  | ([], _) => false
  | (_ :: _, r) =>
    match r with
    | c :: rest => isPyWs c && (rest == ("weeks").data || rest == ("months").data)
    | [] => false

/-- The `gender` enum literal. -/
inductive Gender where
  | male
  | female
  | other
deriving DecidableEq

/-- The `race` enum literal. -/
inductive Race where
  | white
  | black
  | asian
  | hispanic
  | other
deriving DecidableEq

/-- `DemographicData`. -/
structure DemographicData where
  name : String
  dob : PyDate
  gender : Gender
  race : Race
  language : String
deriving DecidableEq

/-- A lab value: numeric or qualitative. -/
inductive LabValue where
  | num (q : Rat)
  | qual (s : String)
deriving DecidableEq

/-- `LabResult`. -/
structure LabResult where
  value : LabValue
  unit : Option String
deriving DecidableEq

/-- `MedicationChange`. -/
structure MedicationChange where
  continued : List String
  new : Option String
deriving DecidableEq

/-- `InitialAssessment`: condition-to-code map, allergies, per-condition labs. -/
structure InitialAssessment where
  conditions : List (String × String)
  allergies : List String
  baseline_labs : List (String × List (String × LabResult))
deriving DecidableEq

/-- `OfficeVisit`. -/
structure OfficeVisit where
  condition : String
  icd10 : String
  labs : List (String × LabResult)
  medications : MedicationChange
  note : String
deriving DecidableEq

/-- `HospitalAdmission`. -/
structure HospitalAdmission where
  condition : String
  icd10 : String
  labs : List (String × LabResult)
  note : String
deriving DecidableEq

/-- The discharge `disposition` enum. -/
inductive Disposition where
  | home
  | rehab
  | snf
  | hospice
deriving DecidableEq

/-- `DischargeSummary`. -/
structure DischargeSummary where
  condition : String
  procedure : Option String
  procedure_icd10 : Option String
  disposition : Disposition
  follow_up : String
  note : String
deriving DecidableEq

/-- The `TimelineEvent` tagged union: the `type` literal of each wrapper class
becomes the constructor. -/
inductive TimelineEvent where
  | initialAssessment (date : PyDate) (content : InitialAssessment)
  | officeVisit (date : PyDate) (content : OfficeVisit)
  | hospitalAdmission (date : PyDate) (content : HospitalAdmission)
  | dischargeSummary (date : PyDate) (content : DischargeSummary)
deriving DecidableEq

/-- `PatientRecord`. -/
structure PatientRecord where
  patient_id : String
  demographics : DemographicData
  timeline : List TimelineEvent
deriving DecidableEq

/-- An event's `date` field. -/
def eventDate : TimelineEvent → PyDate
  | .initialAssessment d _ => d
  | .officeVisit d _ => d
  | .hospitalAdmission d _ => d
  | .dischargeSummary d _ => d

/-- The per-event string and length constraints pydantic enforces. -/
def eventOk : TimelineEvent → Bool
  | .initialAssessment d c => dateOk d && c.conditions.all (fun kv => icd10Ok kv.2)
  | .officeVisit d c => dateOk d && icd10Ok c.icd10 && 50 ≤ c.note.length
  | .hospitalAdmission d c => dateOk d && icd10Ok c.icd10 && 30 ≤ c.note.length
  | .dischargeSummary d c =>
    dateOk d &&
    (match c.procedure_icd10 with
     | some p => icd10pcsOk p
     | none => true) &&
    followUpOk c.follow_up && 100 ≤ c.note.length

/-- All constrained-field checks of the `PatientRecord` schema beyond what the
Lean types already guarantee: identifier pattern, nonempty name, valid birth
date, nonempty timeline (`min_length=1`), and the per-event constraints. -/
def schemaOk (r : PatientRecord) : Bool :=
  patientIdOk r.patient_id && 1 ≤ r.demographics.name.length && dateOk r.demographics.dob &&
  !r.timeline.isEmpty && r.timeline.all eventOk

/-- The date order `sorted` uses on `datetime.date` values. -/
def dateLe (a b : PyDate) : Prop := toOrdinal a ≤ toOrdinal b

instance : DecidableRel dateLe := fun a b => inferInstanceAs (Decidable (toOrdinal a ≤ toOrdinal b))

instance : IsTotal PyDate dateLe := ⟨fun a b => Int.le_total (toOrdinal a) (toOrdinal b)⟩

instance : IsTrans PyDate dateLe := ⟨fun _ _ _ h1 h2 => le_trans h1 h2⟩

/-- Python `sorted(dates)`: a stable ascending sort. -/
def pySortedDates (l : List PyDate) : List PyDate := List.insertionSort dateLe l

/-- `validate_patient_data` /
`PatientRecord.model_validate`: the constrained-field checks, then the
`validate_timeline_order` field validator, which raises precisely when the
extracted date list differs from its sorted copy, and returns the record
otherwise — never reordering it. -/
def validatePatientData (r : PatientRecord) : Except String PatientRecord :=
  if ¬ schemaOk r then .error ("value does not match the PatientRecord schema")
  else
    let dates := r.timeline.map eventDate
    if dates = pySortedDates dates then .ok r
    else .error ("Timeline events must be in chronological order")

/-! ### Auxiliary observers and predicates used by the statements below -/

/-- Pure dict lookup (last-assignment-wins), `none` off dicts or missing keys. -/
def jlook (v : JValue) (k : String) : Option JValue :=
  match v with
  | .obj ms => (ms.reverse.find? (fun kv => decide (kv.1 = k))).map Prod.snd
  | _ => none

/-- The `answer` string a parse outcome carries, if any: used to observe that
two parse outcomes differ. -/
def answerOf (r : Except PyErr JValue) : Option String :=
  match r with
  | .ok v =>
    match jlook v ("answer") with
    | some (.str s) => some s
    | _ => none
  | .error _ => none

/-- Characters at which Python's json scanner can start a value (or skip
whitespace). A head character outside this set makes `json.loads` fail at
once. -/
def isJsonInit (c : Char) : Bool :=
  isJsonWs c || c = '{' || c = '[' || c = '"' || c = 't' || c = 'f' || c = 'n' ||
  c = '-' || c.isDigit

/-- A timeline-event dictionary whose optional `content` is a dictionary with
string-valued `condition` and `note` entries when present — the shape every
generator-produced or schema-validated event dump has. -/
def eventWS (ev : JValue) : Bool :=
  match ev with
  | .obj kvs =>
    match jlook (.obj kvs) ("content") with
    | none => true
    | some (.obj cs) =>
      (match jlook (.obj cs) ("condition") with
       | none => true
       | some (.str _) => true
       | some _ => false) &&
      (match jlook (.obj cs) ("note") with
       | none => true
       | some (.str _) => true
       | some _ => false)
    | some _ => false
  | _ => false

/-- A representative raw `medical_data` dictionary for the app-layer prompt
builder, with the date of birth and timeline left variable. -/
def mkAppMd (name dob : String) (evs : List JValue) : JValue :=
  .obj
    [(("patient_id"), .str ("PT001")),
     (("demographics"), .obj
       [(("name"), .str name), (("dob"), .str dob),
        (("gender"), .str ("M")), (("race"), .str ("Other"))]),
     (("timeline"), .arr evs)]

/-- The condition set `create_medical_prompt` accumulates from a raw record
(in insertion order), before the set's iteration order is applied. -/
def condSetOf (md : JValue) : List JValue :=
  match pySub md ("timeline") with
  | .error _ => []
  | .ok tl =>
    match pyIter tl with
    | .error _ => []
    | .ok evs =>
      match collectConds evs [] with
      | .ok cs => cs
      | .error _ => []

/-! ### Concrete data for witnesses and counterexamples -/

/-- The schema's own documented example record (`json_schema_extra`). -/
def exampleRecord : PatientRecord :=
  { patient_id := ("PT001")
    demographics :=
      { name := ("John Doe"), dob := ⟨1980, 1, 15⟩, gender := .male, race := .white,
        language := ("English") }
    timeline :=
      [.initialAssessment ⟨2023, 1, 1⟩
        { conditions := [(("Hypertension"), ("I10"))]
          allergies := [("Penicillin")]
          baseline_labs :=
            [(("Hypertension"),
              [(("BP"), ⟨.qual ("140/90"), none⟩), (("Cr"), ⟨.num (6 / 5), some ("mg/dL")⟩)])] }] }

/-- The example record with a second, earlier-dated event appended: its
timeline dates are not non-decreasing. -/
def unsortedRecord : PatientRecord :=
  { exampleRecord with
    timeline :=
      [.initialAssessment ⟨2023, 2, 1⟩
        { conditions := [(("Hypertension"), ("I10"))], allergies := [], baseline_labs := [] },
       .initialAssessment ⟨2023, 1, 1⟩
        { conditions := [(("Hypertension"), ("I10"))], allergies := [], baseline_labs := [] }] }

/-- A concrete `medical_data` dictionary for the core extractor. -/
def demoData : MedicalData :=
  { patient_id := ("PT001"), date_of_birth := ("1980-01-15")
    chronic_conditions := [("Hypertension")], allergies := [("Penicillin")]
    medical_notes := [⟨("2023-01-01"), ("Dr. Smith"), ("BP elevated at 150/95 today.")⟩] }

/-- A second concrete record, with a malformed date of birth. -/
def badDobData : MedicalData :=
  { patient_id := ("PT002"), date_of_birth := ("15/01/1980")
    chronic_conditions := [], allergies := []
    medical_notes := [⟨("2023-03-05"), ("Dr. Jones"), ("Follow-up visit.")⟩] }

/-- A fixed evaluation date. -/
def demoNow : PyDate := ⟨2026, 10, 12⟩

/-- A well-formed, field-complete model response. -/
def dqPayload : String :=
  ("\x7b\"answer\": \"yes\", \"reason\": \"ok\", \"confidence\": 0.9, \"evidence\": []\x7d")

/-- The same logical payload with single quotes substituted for double quotes. -/
def sqPayload : String :=
  ("\x7b\x27answer\x27: \x27yes\x27, \x27reason\x27: \x27ok\x27, \x27confidence\x27: 0.9, \x27evidence\x27: []\x7d")

/-- What `json.loads` makes of `dqPayload`. -/
def dqValue : JValue :=
  .obj
    [(("answer"), .str ("yes")), (("reason"), .str ("ok")),
     (("confidence"), .float (9 / 10)), (("evidence"), .arr [])]

/-- A stub model that raises on the first two attempts and answers on the
third. -/
def stubFailTwice : Nat → String → Except PyErr String :=
  fun i _ => if i < 2 then .error (.valueError ("Connection refused")) else .ok dqPayload

/-- A stub model that raises on every attempt. -/
def stubAlwaysRaise : Nat → String → Except PyErr String :=
  fun _ _ => .error (.valueError ("Connection refused"))

/-- A stub that raises on the first `retryAttempts` attempts and would answer
on any later one — distinguishable from `stubAlwaysRaise` only by a fourth
invocation. -/
def stubRaiseThenOk : Nat → String → Except PyErr String :=
  fun i _ => if i < retryAttempts then .error (.valueError ("Connection refused")) else .ok dqPayload

/-- A raw record for the prompt-determinism claim, whose timeline mentions two
distinct conditions. -/
def twoCondMd : JValue :=
  mkAppMd ("Jane Roe") ("1980-01-15")
    [.obj [(("type"), .str ("office_visit")), (("date"), .str ("2023-01-01")),
           (("content"), .obj [(("condition"), .str ("Asthma")),
                               (("note"), .str ("Asthma reviewed; inhaler continued."))])],
     .obj [(("type"), .str ("office_visit")), (("date"), .str ("2023-02-01")),
           (("content"), .obj [(("condition"), .str ("Gout")),
                               (("note"), .str ("Gout flare; colchicine started."))])]]

/-! ## Theorems -/

/-- A Python `sorted` fixed point is exactly a non-decreasing list: `sorted`
returns the list itself precisely when consecutive dates never decrease. -/
theorem sorted_eq_iff_chain (l : List PyDate) :
    l = pySortedDates l ↔ List.Chain' dateLe l := by
  constructor
  · intro h
    have hs : List.Sorted dateLe (pySortedDates l) := List.sorted_insertionSort dateLe l
    rw [← h] at hs
    exact List.chain'_iff_pairwise.mpr hs
  · intro h
    exact (List.Sorted.insertionSort_eq (List.chain'_iff_pairwise.mp h)).symm

/-- C1: a raw input conforming to the PatientRecord schema whose timeline
dates are non-decreasing validates successfully and comes back unchanged
(equal in content); any input whose timeline dates are not non-decreasing is
rejected with a validation error — never silently reordered. -/
theorem c1_timeline_validation (r : PatientRecord) :
    (schemaOk r = true → List.Chain' dateLe (r.timeline.map eventDate) →
      validatePatientData r = .ok r) ∧
    (¬ List.Chain' dateLe (r.timeline.map eventDate) →
      ∃ e, validatePatientData r = .error e) := by
  constructor
  · intro hs hc
    have hd : r.timeline.map eventDate = pySortedDates (r.timeline.map eventDate) :=
      (sorted_eq_iff_chain _).mpr hc
    simp [validatePatientData, hs, ← hd]
  · intro hc
    have hd : ¬ (r.timeline.map eventDate = pySortedDates (r.timeline.map eventDate)) :=
      fun h => hc ((sorted_eq_iff_chain _).mp h)
    by_cases hs : schemaOk r
    · exact ⟨("Timeline events must be in chronological order"),
        by simp [validatePatientData, hs, hd]⟩
    · exact ⟨("value does not match the PatientRecord schema"),
        by simp [validatePatientData, hs]⟩

/-- Witness for C1 at the schema's documented example record (valid and
ordered) and at a two-event record whose dates decrease. -/
theorem c1_timeline_validation_witness :
    validatePatientData exampleRecord = .ok exampleRecord ∧
    ∃ e, validatePatientData unsortedRecord = .error e :=
  ⟨(c1_timeline_validation exampleRecord).1 (by decide)
      (by rw [show List.map eventDate exampleRecord.timeline = [(⟨2023, 1, 1⟩ : PyDate)] from rfl]
          simp),
   (c1_timeline_validation unsortedRecord).2
      (by rw [show List.map eventDate unsortedRecord.timeline =
                [(⟨2023, 2, 1⟩ : PyDate), (⟨2023, 1, 1⟩ : PyDate)] from rfl]
          simp only [List.chain'_cons, List.chain'_singleton, and_true]
          decide)⟩

/-- C2: with a stub whose `invoke` raises twice and returns a parseable,
field-complete payload on the third attempt, `extract` succeeds with that
third response. But when `invoke` raises on every attempt, the code does not
return the failure dictionary the claim describes: referencing the
never-assigned local `response` in the final `except` block raises
`UnboundLocalError` (an escaping exception), and a stub that would succeed
on a fourth attempt is never asked — the loop stops at the configured bound
of 3. -/
theorem c2_retry_behavior :
    coreExtract stubFailTwice demoData ("Does the patient have hypertension?") demoNow =
      .ok (.success dqValue dqPayload) ∧
    coreExtract stubAlwaysRaise demoData ("Does the patient have hypertension?") demoNow =
      .error (.unboundLocal ("local variable response referenced before assignment")) ∧
    coreExtract stubRaiseThenOk demoData ("Does the patient have hypertension?") demoNow =
      .error (.unboundLocal ("local variable response referenced before assignment")) :=
  ⟨by with_unfolding_all rfl, by with_unfolding_all rfl, by with_unfolding_all rfl⟩

/-- C4: on a response with no JSON object and no field-pattern matches, the
pipeline does not fail — the regex fallback fabricates an all-defaults
dictionary whose keys satisfy the required-field check, so `extract` returns
a result marked `success` with empty-string answer and reason (the raw text
is carried, but in a success, contradicting the claimed failure). -/
theorem c4_no_json_success_bug :
    coreExtract (fun _ _ => .ok ("I cannot determine that from the notes."))
        demoData ("Was the patient treated?") demoNow =
      .ok (.success
        (.obj [(("answer"), .str ("")), (("confidence"), .float 0),
               (("reason"), .str ("")), (("evidence"), .arr []),
               (("extracted_data"), .obj
                 [(("medications"), .arr []), (("diagnoses"), .arr []),
                  (("procedures"), .arr []), (("symptoms"), .arr [])])])
        ("I cannot determine that from the notes.")) := by
  with_unfolding_all rfl

/-- C5: a model whose `invoke` raises on every attempt drives `extract` into
the final `except` block with the local `response` never assigned; the
resulting `UnboundLocalError` escapes `extract` instead of the claimed
fully-formed failure result with a placeholder raw response. -/
theorem c5_unbound_response_bug :
    coreExtract (fun _ _ => .error (.typeError ("API connection timed out")))
        demoData ("Is the patient on multiple medications?") demoNow =
      .error (.unboundLocal ("local variable response referenced before assignment")) := by
  with_unfolding_all rfl

/-- C7 counterexample: the core extractor's prompt path does raise on a
malformed date of birth — `_calculate_age`'s `strptime` failure propagates
out of `extract` before any model invocation, refuting the claim for the
core path. -/
theorem c7_core_age_raises :
    coreExtract mockInvoke badDobData ("Has the patient been hospitalized recently?") demoNow =
      .error (.valueError ("time data 15/01/1980 does not match format %Y-%m-%d")) := by
  with_unfolding_all rfl

/-- C10: over the mock provider, whose fixed payload parses as JSON but has
neither an `answer` nor a `reason` key, every extraction with a parseable
date of birth fails all three attempts on the minimum-field validation and
returns the failure dictionary carrying that error and the stub payload. -/
theorem c10_mock_missing_fields (d : MedicalData) (q : String) (now : PyDate) (bd : PyDate)
    (h : parseYMD d.date_of_birth = some bd) :
    coreExtract mockInvoke d q now =
      .ok (.failure ("Missing required fields in response") mockPayload) := by
  unfold coreExtract calcAge
  rw [h]
  with_unfolding_all rfl

/-- Witness for C10 at a concrete record and question. -/
theorem c10_mock_missing_fields_witness :
    coreExtract mockInvoke demoData ("Does the patient have hypertension?") demoNow =
      .ok (.failure ("Missing required fields in response") mockPayload) :=
  c10_mock_missing_fields demoData ("Does the patient have hypertension?") demoNow
    ⟨1980, 1, 15⟩ rfl

/-- C6: `get_llm` raises only for the missing hosted-API credential — with no
key supplied explicitly or via the environment it fails fast with the typed
credential `ValueError` whatever the import situation — while an unavailable
integration (`ImportError` from the provider constructor) is silently
replaced by the deterministic stub for both non-mock providers, so callers
always receive a usable invocable. -/
theorem c6_gateway_errors :
    (∀ m oi ol, getLLM .openai m none none oi ol =
      .error (.valueError
        ("OpenAI API key not found. Set OPENAI_API_KEY in .env or pass explicitly"))) ∧
    (∀ m ek env k ol, pyOrStr ek env = some k → k ≠ ("") →
      getLLM .openai m ek env false ol = .ok .mockLLM) ∧
    (∀ m ek env oi, getLLM .ollama m ek env oi false = .ok .mockLLM) := by
  refine ⟨fun m oi ol => ?_, fun m ek env k ol hk hne => ?_, fun m ek env oi => ?_⟩
  · simp [getLLM, getOpenaiLLM, pyOrStr]
  · simp [getLLM, getOpenaiLLM, hk, hne]
  · simp [getLLM, getOllamaLLM]

/-- Witness for C6: concrete missing-credential failure, concrete stub
substitutions for both unavailable integrations. -/
theorem c6_gateway_errors_witness :
    getLLM .openai none none none true true =
      .error (.valueError
        ("OpenAI API key not found. Set OPENAI_API_KEY in .env or pass explicitly")) ∧
    getLLM .openai none (some ("sk-test")) none false true = .ok .mockLLM ∧
    getLLM .ollama none none none true false = .ok .mockLLM :=
  ⟨c6_gateway_errors.1 none true true,
   c6_gateway_errors.2.1 none (some ("sk-test")) none ("sk-test") true rfl (by decide),
   c6_gateway_errors.2.2 none none none true⟩

/-- `dict.get` on a dict, phrased through the pure lookup. -/
theorem pyGetD_obj (ms : List (String × JValue)) (k : String) (d : JValue) :
    pyGetD (.obj ms) k d = .ok ((jlook (.obj ms) k).getD d) := rfl

/-- Monadic bind on a successful `Except` step. -/
theorem pxBind_ok {α β : Type} (a : α) (f : α → Except PyErr β) :
    (Except.ok a >>= f) = f a := rfl

/-- Monadic bind on a failed `Except` step. -/
theorem pxBind_error {α β : Type} (e : PyErr) (f : α → Except PyErr β) :
    ((Except.error e : Except PyErr α) >>= f) = .error e := rfl

/-- C9 (amended): the app parser's confidence is exactly what Python
`float()` makes of the payload field — `0` when the field is absent, and the
numeric value unchanged when it is a JSON int or float, with no clamping to
the 0..1 range (out-of-range values pass through; a non-numeric field
instead aborts the whole parse into the error tuple). -/
theorem c9_confidence_passthrough (s : String) (ms : List (String × JValue))
    (hp : jsonLoads (appPreprocess s) = some (.obj ms))
    (hev : jlook (.obj ms) ("Evidence") = none ∨
      ∃ l, jlook (.obj ms) ("Evidence") = some (.arr l)) :
    (jlook (.obj ms) ("Confidence") = none → (parseLLMResponse s).confidence = 0) ∧
    (∀ n : Int, jlook (.obj ms) ("Confidence") = some (.int n) →
      (parseLLMResponse s).confidence = (n : Rat)) ∧
    (∀ q : Rat, jlook (.obj ms) ("Confidence") = some (.float q) →
      (parseLLMResponse s).confidence = q) := by
  refine ⟨fun hc => ?_, fun n hc => ?_, fun q hc => ?_⟩ <;>
  · rcases hev with hev | ⟨l, hev⟩ <;>
      simp [parseLLMResponse, parseLLMResponseE, hp, pyGetD_obj, hev, hc, pyList, pyFloat,
        pxBind_ok, pxBind_error]

/-- Witness for C9 at a payload whose `Confidence` is the integer 3. -/
theorem c9_confidence_passthrough_witness :
    (parseLLMResponse ("\x7b\"Answer\": \"yes\", \"Confidence\": 3\x7d")).confidence =
      ((3 : Int) : Rat) :=
  (c9_confidence_passthrough ("\x7b\"Answer\": \"yes\", \"Confidence\": 3\x7d")
    [(("Answer"), .str ("yes")), (("Confidence"), .int 3)] rfl (.inl rfl)).2.1 3 rfl

/-- C9 counterexample: a payload whose `Confidence` is 5 — outside the 0..1
range — is parsed to confidence 5, not the claimed 0. -/
theorem c9_out_of_range_kept :
    (parseLLMResponse
      ("\x7b\"Answer\": \"yes\", \"Reason\": \"r\", \"Evidence\": [], \"Confidence\": 5\x7d")).confidence
      = 5 ∧ (5 : Rat) ≠ 0 :=
  ⟨by with_unfolding_all rfl, by norm_num⟩

set_option maxHeartbeats 1000000 in
/-- The app prompt builder consults the set-order argument only through its
value on the record's accumulated condition set: two orderings that agree
there produce identical prompts. -/
theorem createMedicalPromptE_ord (ord ord2 : List JValue → List JValue) (now : PyDate)
    (md : JValue) (q : String) (h : ord (condSetOf md) = ord2 (condSetOf md)) :
    createMedicalPromptE ord now md q = createMedicalPromptE ord2 now md q := by
  unfold createMedicalPromptE
  cases h1 : pySub md ("demographics") with
  | error e => simp only [pxBind_error]
  | ok demo =>
  simp only [pxBind_ok]
  cases h2 : pySub demo ("dob") with
  | error e => simp only [pxBind_error]
  | ok dobV =>
  simp only [pxBind_ok]
  cases h3 : asPyStrArg dobV with
  | error e => simp only [pxBind_error]
  | ok dob =>
  simp only [pxBind_ok]
  cases h4 : pySub md ("timeline") with
  | error e => simp only [pxBind_error]
  | ok tl =>
  simp only [pxBind_ok]
  cases h5 : pyIter tl with
  | error e => simp only [pxBind_error]
  | ok evs =>
  simp only [pxBind_ok]
  cases h6 : collectConds evs [] with
  | error e => simp only [pxBind_error]
  | ok condSet =>
  simp only [pxBind_ok]
  have hc : condSetOf md = condSet := by simp [condSetOf, h4, h5, h6]
  have h9 : ord condSet = ord2 condSet := hc ▸ h
  rw [h9]

/-- C8 (amended): with the wall clock fixed and the per-run set iteration
order fixed, `create_medical_prompt` is deterministic — orderings that agree
on the record's condition set give byte-identical prompts. -/
theorem c8_prompt_determinism (ord ord2 : List JValue → List JValue) (now : PyDate)
    (md : JValue) (q : String) (h : ord (condSetOf md) = ord2 (condSetOf md)) :
    createMedicalPrompt ord now md q = createMedicalPrompt ord2 now md q := by
  unfold createMedicalPrompt
  rw [createMedicalPromptE_ord ord ord2 now md q h]

/-- Witness for C8's amended determinism at a concrete record, with a
syntactically different but extensionally agreeing ordering. -/
theorem c8_prompt_determinism_witness :
    createMedicalPrompt id demoNow twoCondMd ("Does the patient have asthma?") =
    createMedicalPrompt (fun l => l.reverse.reverse) demoNow twoCondMd
      ("Does the patient have asthma?") :=
  c8_prompt_determinism id (fun l => l.reverse.reverse) demoNow twoCondMd
    ("Does the patient have asthma?") (by simp)

/-- A head character outside the JSON starting set makes `parseVal` fail at
once, whatever the fuel. -/
theorem parseVal_head_bad (fuel : Nat) (c : Char) (cs : List Char) (h : isJsonInit c = false) :
    parseVal fuel (c :: cs) = none := by
  simp only [isJsonInit, Bool.or_eq_false_iff, decide_eq_false_iff_not] at h
  obtain ⟨⟨⟨⟨⟨⟨⟨⟨hws, h1⟩, h2⟩, h3⟩, h4⟩, h5⟩, h6⟩, h7⟩, h8⟩ := h
  cases fuel with
  | zero => rfl
  | succ n => simp [parseVal, skipWs, hws, h1, h2, h3, h4, h5, h6, h7, h8]

/-- `json.loads` fails on any text whose first character cannot start a JSON
document. -/
theorem jsonLoads_head_bad (s : String) (c : Char) (cs : List Char)
    (hd : s.data = c :: cs) (h : isJsonInit c = false) : jsonLoads s = none := by
  unfold jsonLoads
  rw [hd, parseVal_head_bad _ _ _ h]

/-- The lazy group scan of the markdown-fence regex, on a backtick-free
nonempty body followed by the closing `\n```` `: it captures exactly the body. -/
theorem fenceScan_no_tick (p : List Char) (hp : p ≠ []) (hb : ¬ '`' ∈ p) :
    ∀ acc, fenceScan acc (p ++ ['\n', '`', '`', '`']) = some (acc ++ p) := by
  induction p with
  | nil => exact absurd rfl hp
  | cons x xs ih =>
    intro acc
    cases xs with
    | nil => simp [fenceScan, closeHere, lstarts]
    | cons y ys =>
      have hy : ¬ y = '`' := fun he => hb (by simp [he])
      have hb2 : ¬ '`' ∈ y :: ys := fun hm => hb (List.mem_cons_of_mem _ hm)
      have hclose : closeHere ((y :: ys) ++ ['\n', '`', '`', '`']) = false := by
        cases ys with
        | nil => simp [closeHere, lstarts, hy]
        | cons z zs =>
          have hz : ¬ z = '`' := fun he => hb2 (by simp [he])
          simp [closeHere, lstarts, hy, hz]
      have hstep : fenceScan acc ((x :: (y :: ys)) ++ ['\n', '`', '`', '`']) =
          if closeHere ((y :: ys) ++ ['\n', '`', '`', '`']) then some (acc ++ [x])
          else fenceScan (acc ++ [x]) ((y :: ys) ++ ['\n', '`', '`', '`']) := rfl
      rw [hstep, hclose, if_neg (by simp), ih (by simp) hb2 (acc ++ [x])]
      simp

/-- The strategy-2 regex on a well-formed fenced response: the opener matches
at the start, the greedy newline is consumed, and the group is exactly the
fenced body. -/
theorem findFence_wrapped (P : List Char) (hp : P ≠ []) (hb : ¬ '`' ∈ P) :
    findFence
      ('`' :: '`' :: '`' :: 'j' :: 's' :: 'o' :: 'n' :: '\n' :: (P ++ ['\n', '`', '`', '`'])) =
      some (String.mk P) := by
  have hscan := fenceScan_no_tick P hp hb []
  simp [findFence, lstarts, hscan]

/-- The strategy-2 regex finds nothing in backtick-free text. -/
theorem findFence_no_tick (cs : List Char) (h : ¬ '`' ∈ cs) : findFence cs = none := by
  induction cs with
  | nil => rfl
  | cons c cs ih =>
    have hc : ¬ c = '`' := fun he => h (by simp [he])
    have h2 : ¬ '`' ∈ cs := fun hm => h (List.mem_cons_of_mem _ hm)
    simp [findFence, lstarts, hc, ih h2]

/-- `str.find` locates the first occurrence: on `l1 ++ ch :: l2` with `ch`
absent from `l1`, the index is `l1.length`. -/
theorem pyFindAux_append (ch : Char) (l1 l2 : List Char) (h : ¬ ch ∈ l1) :
    pyFindAux ch (l1 ++ ch :: l2) = some l1.length := by
  induction l1 with
  | nil => simp [pyFindAux]
  | cons x xs ih =>
    have hx : ¬ x = ch := fun he => h (by simp [he])
    have h2 : ¬ ch ∈ xs := fun hm => h (List.mem_cons_of_mem _ hm)
    simp [pyFindAux, hx, ih h2]

/-- String concatenation concatenates the character lists. -/
theorem strData_append (a b : String) : (a ++ b).data = a.data ++ b.data := rfl

/-- C3 (amended): for a JSON-object payload that decodes directly, the core
response parser returns the same decoded value for the payload itself, for
the payload wrapped in a ```` ```json ```` code fence, and for the payload
surrounded by extraneous prose (prose free of braces and backticks, starting
with a character that cannot start JSON). The spec's single-quote variant is
not recovered — see the separate divergence theorem. -/
theorem c3_parser_invariance (P pre post : String) (v : JValue) (mid : List Char) (c : Char)
    (hP : jsonLoads P = some v)
    (hPd : P.data = '{' :: mid ++ ['}'])
    (hPb : ¬ '`' ∈ P.data)
    (hpre1 : pre.data.head? = some c)
    (hpre2 : isJsonInit c = false)
    (hpre3 : ¬ '{' ∈ pre.data)
    (hpre4 : ¬ '`' ∈ pre.data)
    (hpost1 : ¬ '}' ∈ post.data)
    (hpost2 : ¬ '`' ∈ post.data) :
    extractFromResponse P = .ok v ∧
    extractFromResponse (("```json\n") ++ P ++ ("\n```")) = .ok v ∧
    extractFromResponse (pre ++ P ++ post) = .ok v := by
  have hmk : String.mk P.data = P := rfl
  have hne : P.data ≠ [] := by rw [hPd]; simp
  refine ⟨by simp [extractFromResponse, hP], ?_, ?_⟩
  · -- fenced variant
    have hwdata : (("```json\n") ++ P ++ ("\n```")).data =
        '`' :: '`' :: '`' :: 'j' :: 's' :: 'o' :: 'n' :: '\n' :: (P.data ++ ['\n', '`', '`', '`']) := by
      simp [strData_append]
    have h1 : jsonLoads (("```json\n") ++ P ++ ("\n```")) = none :=
      jsonLoads_head_bad _ '`' _ hwdata (by decide)
    have h2 : findFence
        ('`' :: '`' :: '`' :: 'j' :: 's' :: 'o' :: 'n' :: '\n' :: (P.data ++ ['\n', '`', '`', '`'])) =
        some P := by
      rw [findFence_wrapped P.data hne hPb, hmk]
    simp [extractFromResponse, hwdata, h1, h2, hP]
  · -- prose-wrapped variant
    have hwd : (pre ++ P ++ post).data = pre.data ++ P.data ++ post.data := by
      simp [strData_append]
    obtain ⟨pt, hpt⟩ : ∃ t, pre.data = c :: t := by
      cases hq : pre.data with
      | nil => rw [hq] at hpre1; exact absurd hpre1 (by simp)
      | cons a t =>
        rw [hq] at hpre1
        simp at hpre1
        exact ⟨t, by rw [hpre1]⟩
    have h1 : jsonLoads (pre ++ P ++ post) = none := by
      refine jsonLoads_head_bad _ c (pt ++ P.data ++ post.data) ?_ hpre2
      rw [hwd, hpt]; simp
    have hnb : ¬ '`' ∈ (pre ++ P ++ post).data := by
      rw [hwd]; simp [hpre4, hPb, hpost2]
    have h2 : findFence (pre.data ++ (P.data ++ post.data)) = none := by
      refine findFence_no_tick _ ?_
      have := hwd ▸ hnb
      simpa using this
    have hlen : P.data.length = mid.length + 2 := by rw [hPd]; simp
    have hfind : pyFind (pre ++ P ++ post) '{' = some pre.data.length := by
      unfold pyFind
      rw [hwd, hPd]
      rw [show pre.data ++ ('{' :: mid ++ ['}']) ++ post.data =
            pre.data ++ '{' :: (mid ++ ['}'] ++ post.data) by simp]
      exact pyFindAux_append '{' pre.data _ hpre3
    have hrfind : pyRFind (pre ++ P ++ post) '}' =
        some (pre.data.length + P.data.length - 1) := by
      unfold pyRFind
      rw [hwd, hPd]
      rw [show (pre.data ++ ('{' :: mid ++ ['}']) ++ post.data).reverse =
            post.data.reverse ++ '}' :: (mid.reverse ++ '{' :: pre.data.reverse) by
          simp]
      rw [pyFindAux_append '}' post.data.reverse _ (by simp [hpost1])]
      simp only [Option.map_some', Option.map_some, List.length_reverse, List.length_append,
        List.length_cons, List.length_nil]
      congr 1
      omega
    have hslice : pySlice (pre ++ P ++ post) pre.data.length
        ((pre.data.length + P.data.length - 1) + 1) = P := by
      unfold pySlice
      rw [hwd]
      have h9 : (pre.data.length + P.data.length - 1) + 1 - pre.data.length = P.data.length := by
        omega
      rw [h9, List.append_assoc, List.drop_left, List.take_left, hmk]
    have hfind2 : pyFind (pre ++ P ++ post) '{' = some pre.length := hfind
    have hrfind2 : pyRFind (pre ++ P ++ post) '}' = some (pre.length + P.length - 1) := hrfind
    have hslice2 : pySlice (pre ++ P ++ post) pre.length (pre.length + P.length - 1 + 1) = P :=
      hslice
    simp [extractFromResponse, hwd, h1, h2, hfind2, hrfind2, hslice2, hP]

set_option maxRecDepth 10000 in
/-- Witness for C3 at a concrete payload: the bare payload, the fenced
variant and a prose-wrapped variant all parse to the same decoded object. -/
theorem c3_parser_invariance_witness :
    extractFromResponse dqPayload = .ok dqValue ∧
    extractFromResponse (("```json\n") ++ dqPayload ++ ("\n```")) = .ok dqValue ∧
    extractFromResponse (("Sure, here is the JSON: ") ++ dqPayload ++ (" Hope this helps.")) =
      .ok dqValue :=
  c3_parser_invariance dqPayload ("Sure, here is the JSON: ") (" Hope this helps.")
    dqValue (("\"answer\": \"yes\", \"reason\": \"ok\", \"confidence\": 0.9, \"evidence\": []").data)
    'S' (by with_unfolding_all rfl) rfl (by decide) rfl (by decide) (by decide) (by decide)
    (by decide) (by decide)

set_option maxRecDepth 10000 in
/-- C3 counterexample: substituting single quotes for double quotes is not
recovered by any strategy — the payload falls through to the regex fallback,
whose double-quote patterns match nothing, so the parsed `answer` is the
empty-string default rather than the payload's value. -/
theorem c3_single_quote_divergence :
    answerOf (extractFromResponse sqPayload) ≠ answerOf (extractFromResponse dqPayload) := by
  have h1 : answerOf (extractFromResponse sqPayload) = some ("") := by with_unfolding_all rfl
  have h2 : answerOf (extractFromResponse dqPayload) = some ("yes") := by with_unfolding_all rfl
  rw [h1, h2]
  simp

/-- Subscripting a dict, phrased through the pure lookup. -/
theorem pySub_obj (ms : List (String × JValue)) (k : String) :
    pySub (.obj ms) k =
      match jlook (.obj ms) k with
      | some v => .ok v
      | none => .error (.keyError k) := rfl

/-- A `true` key-presence test on a member list yields the looked-up value,
which the well-shapedness match forces to be a string. -/
theorem jlook_of_any (cs : List (String × JValue)) (k : String)
    (hany : cs.any (fun kv => decide (kv.1 = k)) = true) :
    ∃ v, jlook (.obj cs) k = some v := by
  have h1 : ∃ x ∈ cs.reverse, (fun kv => decide ((kv : String × JValue).1 = k)) x = true := by
    rw [List.any_eq_true] at hany
    obtain ⟨kv, hm, hk⟩ := hany
    exact ⟨kv, List.mem_reverse.mpr hm, hk⟩
  have h2 := List.find?_isSome.mpr h1
  obtain ⟨p, hp⟩ := Option.isSome_iff_exists.mp h2
  exact ⟨p.2, by simp [jlook, hp]⟩

/-- On a well-shaped event list the condition-set accumulation succeeds and
collects only strings. -/
theorem collectConds_ok (evs : List JValue) (hevs : evs.all eventWS = true) :
    ∀ acc, (∀ x ∈ acc, ∃ s, x = JValue.str s) →
      ∃ cs, collectConds evs acc = .ok cs ∧ ∀ x ∈ cs, ∃ s, x = JValue.str s := by
  induction evs with
  | nil => exact fun acc hacc => ⟨acc, rfl, hacc⟩
  | cons ev rest ih =>
    intro acc hacc
    simp only [List.all_cons, Bool.and_eq_true] at hevs
    obtain ⟨hev, hrest⟩ := hevs
    cases ev
    case obj kvs =>
      unfold collectConds
      rw [pyGetD_obj]
      simp only [pxBind_ok]
      cases hcl : jlook (.obj kvs) ("content") with
      | none =>
        simp only [Option.getD_none, pyContains, List.any_nil, pxBind_ok, Bool.false_eq_true,
          if_false]
        exact ih hrest acc hacc
      | some cv =>
        simp only [Option.getD_some]
        simp only [eventWS, hcl] at hev
        cases cv
        case obj cs =>
          simp only [Bool.and_eq_true] at hev
          obtain ⟨hcond, hnote⟩ := hev
          simp only [pyContains, pxBind_ok]
          by_cases hany : cs.any (fun kv => decide (kv.1 = ("condition"))) = true
          · obtain ⟨v, hv⟩ := jlook_of_any cs ("condition") hany
            obtain ⟨s, rfl⟩ : ∃ s, v = JValue.str s := by
              rw [hv] at hcond
              cases v <;> simp_all
            rw [hany]
            simp only [if_true]
            rw [pySub_obj, hv]
            simp only [pxBind_ok]
            refine ih hrest _ ?_
            intro x hx
            by_cases hmem : x ∈ acc
            · exact hacc x hmem
            · refine ⟨s, ?_⟩
              by_cases hin : acc.any (fun y => jeq y (.str s)) = true <;>
                simp [hin] at hx <;> first
                | exact absurd hx hmem
                | (rcases hx with hx | hx
                   · exact absurd hx hmem
                   · exact hx)
          · rw [Bool.not_eq_true] at hany
            rw [hany]
            simp only [Bool.false_eq_true, if_false]
            exact ih hrest acc hacc
        all_goals simp at hev
    all_goals exact absurd hev (by simp [eventWS])

/-- On a well-shaped event list the recent-notes accumulation succeeds and
collects only strings. -/
theorem collectNotes_ok (evs : List JValue) (hevs : evs.all eventWS = true) :
    ∀ acc, (∀ x ∈ acc, ∃ s, x = JValue.str s) →
      ∃ ns, collectNotes evs acc = .ok ns ∧ ∀ x ∈ ns, ∃ s, x = JValue.str s := by
  induction evs with
  | nil => exact fun acc hacc => ⟨acc, rfl, hacc⟩
  | cons ev rest ih =>
    intro acc hacc
    simp only [List.all_cons, Bool.and_eq_true] at hevs
    obtain ⟨hev, hrest⟩ := hevs
    cases ev
    case obj kvs =>
      unfold collectNotes
      rw [pyGetD_obj]
      simp only [pxBind_ok]
      cases hcl : jlook (.obj kvs) ("content") with
      | none =>
        simp only [Option.getD_none, pyContains, List.any_nil, pxBind_ok, Bool.false_eq_true,
          if_false]
        exact ih hrest acc hacc
      | some cv =>
        simp only [Option.getD_some]
        simp only [eventWS, hcl] at hev
        cases cv
        case obj cs =>
          simp only [Bool.and_eq_true] at hev
          obtain ⟨hcond, hnote⟩ := hev
          simp only [pyContains, pxBind_ok]
          by_cases hany : cs.any (fun kv => decide (kv.1 = ("note"))) = true
          · obtain ⟨v, hv⟩ := jlook_of_any cs ("note") hany
            obtain ⟨s, rfl⟩ : ∃ s, v = JValue.str s := by
              rw [hv] at hnote
              cases v <;> simp_all
            rw [hany]
            simp only [if_true]
            rw [pySub_obj, hcl]
            simp only [pxBind_ok]
            rw [pySub_obj, hv]
            simp only [pxBind_ok]
            refine ih hrest _ ?_
            intro x hx
            rw [List.mem_append] at hx
            rcases hx with hx | hx
            · exact hacc x hx
            · simp at hx
              exact ⟨s, hx⟩
          · rw [Bool.not_eq_true] at hany
            rw [hany]
            simp only [Bool.false_eq_true, if_false]
            exact ih hrest acc hacc
        all_goals simp at hev
    all_goals exact absurd hev (by simp [eventWS])

/-- Joining all-string items never raises. -/
theorem strItems_ok (l : List JValue) (h : ∀ x ∈ l, ∃ s, x = JValue.str s) :
    ∃ ss, strItems l = .ok ss := by
  induction l with
  | nil => exact ⟨[], rfl⟩
  | cons x xs ih =>
    obtain ⟨s, hs⟩ := h x (by simp)
    subst hs
    obtain ⟨ss, hss⟩ := ih (fun y hy => h y (by simp [hy]))
    exact ⟨s :: ss, by simp [strItems, hss, pxBind_ok]⟩

/-- Rendering an all-string condition list never raises. -/
theorem renderConds_ok (l : List JValue) (h : ∀ x ∈ l, ∃ s, x = JValue.str s) :
    ∃ t, renderConds l = .ok t := by
  unfold renderConds
  by_cases he : l.isEmpty
  · exact ⟨("None"), by simp [he]⟩
  · obtain ⟨ss, hss⟩ := strItems_ok l h
    exact ⟨String.intercalate (", ") ss, by simp [he, hss, pxBind_ok]⟩

/-- C7 (amended): the app-layer prompt builder does not raise on a malformed
date of birth. With both `strptime` attempts failing, `safe_date_parse`
falls back to the current time, the derived age defaults to zero, and a
prompt string is still produced for every record with a well-shaped
timeline, whatever iteration order the condition set yields. (The core
extractor's prompt path, by contrast, raises — see the divergence theorem.) -/
theorem c7_app_prompt_fallback (name dob q : String) (now : PyDate)
    (ord : List JValue → List JValue) (evs : List JValue)
    (h1 : parseYMD dob = none) (h2 : parseYMD (splitHeadT dob) = none)
    (hevs : evs.all eventWS = true)
    (hord : ∀ l, ∀ x ∈ ord l, x ∈ l) :
    safeDateParse dob now = now ∧ appAge dob now = 0 ∧
    ∃ s, createMedicalPromptE ord now (mkAppMd name dob evs) q = .ok s := by
  have hsafe : safeDateParse dob now = now := by
    unfold safeDateParse
    rw [h1, h2]
  have hage : appAge dob now = 0 := by
    unfold appAge
    rw [hsafe]
    simp [Int.sub_self]
  refine ⟨hsafe, hage, ?_⟩
  obtain ⟨cs, hcs, hcsStr⟩ := collectConds_ok evs hevs [] (by simp)
  have hordStr : ∀ x ∈ ord cs, ∃ s, x = JValue.str s := fun x hx => hcsStr x (hord cs x hx)
  obtain ⟨ct, hct⟩ := renderConds_ok (ord cs) hordStr
  obtain ⟨ns, hns, hnsStr⟩ := collectNotes_ok evs hevs [] (by simp)
  obtain ⟨ss, hss⟩ := strItems_ok (ns.drop (ns.length - 3))
    (fun x hx => hnsStr x (List.drop_subset _ _ hx))
  unfold createMedicalPromptE
  rw [show pySub (mkAppMd name dob evs) ("demographics") = .ok (.obj
      [(("name"), .str name), (("dob"), .str dob), (("gender"), .str ("M")),
       (("race"), .str ("Other"))]) from rfl]
  rw [pxBind_ok]
  rw [show pySub (JValue.obj
      [(("name"), .str name), (("dob"), .str dob), (("gender"), .str ("M")),
       (("race"), .str ("Other"))]) ("dob") = .ok (.str dob) from rfl]
  rw [pxBind_ok]
  rw [show asPyStrArg (.str dob) = .ok dob from rfl]
  rw [pxBind_ok]
  rw [show pySub (mkAppMd name dob evs) ("timeline") = .ok (.arr evs) from rfl]
  rw [pxBind_ok]
  rw [show pyIter (.arr evs) = .ok evs from rfl]
  rw [pxBind_ok]
  rw [hcs]
  rw [pxBind_ok]
  rw [show pyGetD (mkAppMd name dob evs) ("patient_id") (.str ("N/A")) =
      .ok (.str ("PT001")) from rfl]
  rw [pxBind_ok]
  rw [show pyGetD (JValue.obj
      [(("name"), .str name), (("dob"), .str dob), (("gender"), .str ("M")),
       (("race"), .str ("Other"))]) ("name") (.str ("Unknown")) = .ok (.str name) from rfl]
  rw [pxBind_ok]
  rw [show pyGetD (JValue.obj
      [(("name"), .str name), (("dob"), .str dob), (("gender"), .str ("M")),
       (("race"), .str ("Other"))]) ("gender") (.str ("Unknown")) = .ok (.str ("M")) from rfl]
  rw [pxBind_ok]
  rw [show pyGetD (JValue.obj
      [(("name"), .str name), (("dob"), .str dob), (("gender"), .str ("M")),
       (("race"), .str ("Other"))]) ("race") (.str ("Unknown")) = .ok (.str ("Other")) from rfl]
  rw [pxBind_ok]
  rw [hct]
  rw [pxBind_ok]
  rw [hns]
  rw [pxBind_ok]
  rw [hss]
  rw [pxBind_ok]
  exact ⟨_, rfl⟩

/-- Witness for C7's amended claim at a concrete malformed date of birth. -/
theorem c7_app_prompt_fallback_witness :
    safeDateParse ("31/12/1980") demoNow = demoNow ∧
    appAge ("31/12/1980") demoNow = 0 ∧
    ∃ s, createMedicalPromptE id demoNow (mkAppMd ("Jo") ("31/12/1980") [])
      ("Does the patient have uncontrolled hypertension?") = .ok s :=
  c7_app_prompt_fallback ("Jo") ("31/12/1980")
    ("Does the patient have uncontrolled hypertension?") demoNow id []
    (by decide) (by decide) rfl (fun _ x h => h)

set_option maxRecDepth 100000 in
set_option maxHeartbeats 1000000 in
/-- C8 counterexample: the rendered condition order is the `set` iteration
order, which is hash-seed dependent across interpreter runs; two legitimate
iteration orders of the same two-condition set yield different prompt bytes,
so byte-identity across runs fails (and the order is neither first-appearance
nor alphabetical in general). -/
theorem c8_set_order_dependence :
    createMedicalPrompt List.reverse demoNow twoCondMd ("Does the patient have asthma?") ≠
    createMedicalPrompt id demoNow twoCondMd ("Does the patient have asthma?") := by
  decide

end MedX
